import Mathlib

/-!
Verification of the LabFrame API HTTP layer (`src/api/labframe_api/app.py`).

The file embeds the FastAPI endpoint handlers as pure Lean functions over an
abstract domain-service record.  The domain service (`labframe_core`) is not
part of this repository fragment, so it is universally quantified: each of its
operations is a field of the `Services` structure, returning `Except DomainErr`
to model Python exceptions.  The endpoint handlers are translated line by line
from `app.py`.
-/

namespace LabFrame

/-- Modelled from the spec: the sample summary DTO produced by the domain
service (`labframe_core.app.dto`, not under `src/`).  The HTTP layer only
reads `sample_id` and passes the rest through. -/
structure SampleSummary where
  sample_id : Int
  prepared_on : String
  author_name : Option String
  deleted : Bool
deriving DecidableEq, Repr

/-- Modelled from the spec: the exception taxonomy of
`labframe_core.domain.exceptions` (not under `src/`).  `UnknownSampleError`
is a subtype of `DomainError`, so a handler catching `DomainError` also
catches `UnknownSampleError`; the `unknownSample` constructor represents the
subtype, `other` every remaining `DomainError`. -/
inductive DomainErr where
  | unknownSample (msg : String)
  | other (msg : String)
deriving DecidableEq, Repr

/-- The string produced by Python `str(exc)` on a domain error. -/
def DomainErr.message : DomainErr → String
  | .unknownSample msg => msg
  | .other msg => msg

/-- Modelled from the spec: one parameter assignment in the record-parameters
request body (`SampleParameterValuePayload` from `labframe_core.app.dto`). -/
structure SampleParameterValuePayload where
  parameter_name : String
  value : String
deriving DecidableEq, Repr

/-- Modelled from the spec: one current or historical parameter value item
(`SampleParameterValueItem` from `labframe_core.app.dto`). -/
structure SampleParameterValueItem where
  parameter_name : String
  value : String
deriving DecidableEq, Repr

/-- Modelled from the spec: result of `copy_parameters_from_sample` — the
refreshed target sample, the count of applied values, and skip warnings. -/
structure CopyResult where
  applied : Nat
  sample : SampleSummary
  warnings : List String
deriving DecidableEq, Repr

/-- The abstract domain service consumed by the HTTP layer
(`services.samples` in `app.py`).  `Except DomainErr` models the exceptions a
call may raise. -/
structure Services where
  list_samples : Bool → List SampleSummary
  create_sample : String → Option String → Except DomainErr SampleSummary
  copy_parameters_from_sample : Int → Int → Except DomainErr CopyResult
  record_parameters : Int → List SampleParameterValuePayload → Except DomainErr SampleSummary
  get_sample_parameter_values : Int → Except DomainErr (List SampleParameterValueItem)
  list_parameter_value_history : String → Int → List SampleParameterValueItem

/-- Request body for creating a sample (`CreateSamplePayload` in `app.py`):
`template_sample_id` defaults to `None` and `copy_parameters` to `False`. -/
structure CreateSamplePayload where
  prepared_on : String
  author_name : Option String := none
  template_sample_id : Option Int := none
  copy_parameters : Bool := false
deriving DecidableEq, Repr

/-- Request body for recording parameter values (`RecordParametersPayload`
in `app.py`); `parameters` defaults to the empty tuple. -/
structure RecordParametersPayload where
  parameters : List SampleParameterValuePayload := []
deriving DecidableEq, Repr

/-- Outcome of one HTTP endpoint call: a success response with status code
and body, an `HTTPException` raised by the handler with status code and
detail, or an exception the handler does not catch (propagating out of the
endpoint as a server error). -/
inductive EndpointResult (α : Type) where
  | success (statusCode : Nat) (body : α)
  | httpError (statusCode : Nat) (detail : String)
  | unhandled (exc : DomainErr)
deriving DecidableEq, Repr

/-- Response body of `POST /samples`: the created (possibly refreshed)
sample, the number of copied parameters, and the warnings list. -/
structure CreateResponse where
  sample : SampleSummary
  copied_parameters : Nat
  warnings : List String
deriving DecidableEq, Repr

/-- Response body of `POST /samples/α/parameters`: the updated sample. -/
structure RecordResponse where
  sample : SampleSummary
deriving DecidableEq, Repr

/-- `GET /samples` (`list_samples` in `app.py`): the `include_deleted` query
parameter is declared `Query(False)`, so an omitted parameter means `False`;
the handler returns the domain service's summaries. -/
def list_samples_endpoint (services : Services) (include_deleted_raw : Option Bool) :
    EndpointResult (List SampleSummary) :=
  .success 200 (services.list_samples (include_deleted_raw.getD false))

/-- `GET /samples/α` (`get_sample` in `app.py`): lists every sample with
`include_deleted=True`, returns the first summary whose `sample_id` matches,
and raises a 404 `HTTPException` when none does. -/
def get_sample_endpoint (services : Services) (sample_id : Int) :
    EndpointResult SampleSummary :=
  let summaries := services.list_samples true
  match summaries.find? (fun summary => summary.sample_id == sample_id) with
  | some summary => .success 200 summary
  | none => .httpError 404 "Sample not found"

/-- `POST /samples` (`create_sample` in `app.py`): creates the sample,
turning a `DomainError` into a 400; then, when `copy_parameters` is set and a
`template_sample_id` is present, attempts the copy, downgrading a
`DomainError` to a warning string and otherwise merging the copy result into
the 201 response. -/
def create_sample_endpoint (services : Services) (payload : CreateSamplePayload) :
    EndpointResult CreateResponse :=
  match services.create_sample payload.prepared_on payload.author_name with
  | .error exc => .httpError 400 exc.message
  | .ok created =>
    match payload.copy_parameters, payload.template_sample_id with
    | true, some template_id =>
      match services.copy_parameters_from_sample template_id created.sample_id with
      | .error exc =>
        .success 201 ⟨created, 0, [exc.message]⟩
      | .ok result =>
        .success 201 ⟨result.sample, result.applied, result.warnings⟩
    | _, _ => .success 201 ⟨created, 0, []⟩

/-- `POST /samples/α/parameters` (`record_parameters` in `app.py`): an
`UnknownSampleError` becomes a 404, any other `DomainError` a 400, and
success a 200 with the updated sample. -/
def record_parameters_endpoint (services : Services) (sample_id : Int)
    (payload : RecordParametersPayload) : EndpointResult RecordResponse :=
  match services.record_parameters sample_id payload.parameters with
  | .error (.unknownSample msg) => .httpError 404 msg
  | .error (.other msg) => .httpError 400 msg
  | .ok updated => .success 200 ⟨updated⟩

/-- `GET /samples/α/parameters` (`list_sample_parameters` in `app.py`): an
`UnknownSampleError` becomes a 404; any other exception is not caught and
propagates; success is a 200 with the current values. -/
def list_sample_parameters_endpoint (services : Services) (sample_id : Int) :
    EndpointResult (List SampleParameterValueItem) :=
  match services.get_sample_parameter_values sample_id with
  | .error (.unknownSample msg) => .httpError 404 msg
  | .error (.other msg) => .unhandled (.other msg)
  | .ok values => .success 200 values

/-- FastAPI validation of the `limit` query parameter declared
`Query(25, ge=1, le=200)` in `get_parameter_history`: an omitted parameter
takes the default 25; a supplied value outside `ge=1, le=200` is rejected
with a 422 validation error before the handler runs. -/
def validateLimit (raw : Option Int) : Except String Int :=
  match raw with
  | none => .ok 25
  | some v =>
    if v < 1 then .error "Input should be greater than or equal to 1"
    else if 200 < v then .error "Input should be less than or equal to 200"
    else .ok v

/-- `GET /parameters/α/history` (`get_parameter_history` in `app.py`): after
FastAPI validates the `limit` query parameter, the handler returns the
domain service's history entries for the parameter name and limit. -/
def get_parameter_history_endpoint (services : Services) (parameter_name : String)
    (limit_raw : Option Int) : EndpointResult (List SampleParameterValueItem) :=
  match validateLimit limit_raw with
  | .error detail => .httpError 422 detail
  | .ok limit =>
    .success 200 (services.list_parameter_value_history parameter_name limit)

/-- Concrete sample used by the witnesses: not soft-deleted. -/
def sampleA : SampleSummary := ⟨1, "2024-01-05", some "Ada Lovelace", false⟩

/-- Concrete sample used by the witnesses: soft-deleted. -/
def sampleB : SampleSummary := ⟨2, "2024-02-10", none, true⟩

/-- Concrete parameter value used by the witnesses. -/
def valueX : SampleParameterValueItem := ⟨"tempC", "25"⟩

/-- Concrete domain service used by the witnesses: every call succeeds. -/
def okServices : Services where
  list_samples := fun include_deleted =>
    if include_deleted then [sampleA, sampleB] else [sampleA]
  create_sample := fun _ _ => .ok sampleA
  copy_parameters_from_sample := fun _ _ => .ok ⟨3, sampleB, ["stale"]⟩
  record_parameters := fun _ _ => .ok sampleA
  get_sample_parameter_values := fun _ => .ok [valueX]
  list_parameter_value_history := fun _ _ => [valueX]

/-- Concrete domain service whose calls raise `UnknownSampleError`. -/
def unknownServices : Services :=
  { okServices with
    create_sample := fun _ _ => .error (.unknownSample "Sample 9 not found")
    copy_parameters_from_sample := fun _ _ => .error (.unknownSample "Sample 9 not found")
    record_parameters := fun _ _ => .error (.unknownSample "Sample 9 not found")
    get_sample_parameter_values := fun _ => .error (.unknownSample "Sample 9 not found") }

/-- Concrete domain service whose calls raise a general `DomainError`. -/
def badServices : Services :=
  { okServices with
    create_sample := fun _ _ => .error (.other "invalid value")
    copy_parameters_from_sample := fun _ _ => .error (.other "invalid value")
    record_parameters := fun _ _ => .error (.other "invalid value")
    get_sample_parameter_values := fun _ => .error (.other "invalid value") }

/-- Whether an endpoint outcome is a success response. -/
def EndpointResult.isSuccess {α : Type} : EndpointResult α → Bool
  | .success _ _ => true
  | _ => false

/-- Helper: when some listed sample has the requested id, the by-id endpoint
returns a summary with that id. -/
theorem get_sample_success_of_mem (services : Services) (sample_id : Int)
    (h : ∃ s ∈ services.list_samples true, s.sample_id = sample_id) :
    ∃ summary, get_sample_endpoint services sample_id =
      EndpointResult.success 200 summary ∧ summary.sample_id = sample_id := by
  obtain ⟨s, hmem, hid⟩ := h
  have hsome : ((services.list_samples true).find?
      (fun summary => summary.sample_id == sample_id)).isSome := by
    rw [List.find?_isSome]
    exact ⟨s, hmem, by simp [hid]⟩
  obtain ⟨a, ha⟩ := Option.isSome_iff_exists.mp hsome
  have hpa := List.find?_some ha
  refine ⟨a, ?_, by simpa using hpa⟩
  simp [get_sample_endpoint, ha]

/-- C1: in the POST create-sample flow, when a parameter copy is requested
and `copy_parameters_from_sample` raises a `DomainError`, the request still
succeeds with a 201: the created sample is returned with
`copied_parameters = 0` and the error's message appended to the warnings
list, and no `HTTPException` is raised for the failed copy. -/
theorem create_sample_swallows_copy_failure
    (services : Services) (payload : CreateSamplePayload)
    (created : SampleSummary) (template_id : Int) (exc : DomainErr)
    (hflag : payload.copy_parameters = true)
    (htemplate : payload.template_sample_id = some template_id)
    (hcreate : services.create_sample payload.prepared_on payload.author_name =
      Except.ok created)
    (hfail : services.copy_parameters_from_sample template_id created.sample_id =
      Except.error exc) :
    create_sample_endpoint services payload =
      EndpointResult.success 201 ⟨created, 0, [exc.message]⟩ := by
  simp [create_sample_endpoint, hcreate, hflag, htemplate, hfail]

/-- C1 witness: a concrete failed copy is swallowed into a warning. -/
theorem create_sample_swallows_copy_failure_witness :
    create_sample_endpoint
      { okServices with
        copy_parameters_from_sample := fun _ _ => Except.error (.other "bad source") }
      ⟨"2024-01-05", some "Ada Lovelace", some 2, true⟩ =
      EndpointResult.success 201 ⟨sampleA, 0, ["bad source"]⟩ :=
  create_sample_swallows_copy_failure _ _ sampleA 2 (.other "bad source")
    rfl rfl rfl rfl

/-- C2 counterexample: a requested limit of 201 is rejected with a 422
validation error rather than clamped to 200, so the request does not
succeed. -/
theorem history_limit_clamp_counterexample :
    get_parameter_history_endpoint okServices "ph" (some 201) =
      EndpointResult.httpError 422 "Input should be less than or equal to 200" ∧
    (get_parameter_history_endpoint okServices "ph" (some 201)).isSuccess = false := by
  constructor
  · rfl
  · rfl

/-- C2 (amended): the accepted limit of the parameter-history endpoint is a
positive integer bounded by the ceiling 200, and a requested limit above the
ceiling is rejected with a 422 validation error, not clamped. -/
theorem history_limit_bounded_and_rejected
    (services : Services) (name : String) (v : Int) :
    (∀ body, get_parameter_history_endpoint services name (some v) =
        EndpointResult.success 200 body →
      1 ≤ v ∧ v ≤ 200 ∧ body = services.list_parameter_value_history name v) ∧
    (200 < v → get_parameter_history_endpoint services name (some v) =
      EndpointResult.httpError 422 "Input should be less than or equal to 200") := by
  constructor
  · intro body h
    by_cases h1 : v < 1
    · simp [get_parameter_history_endpoint, validateLimit, h1] at h
    · by_cases h2 : 200 < v
      · simp [get_parameter_history_endpoint, validateLimit, h1, h2] at h
      · refine ⟨by omega, by omega, ?_⟩
        simp [get_parameter_history_endpoint, validateLimit, h1, h2] at h
        exact h.symm
  · intro hv
    have h1 : ¬ v < 1 := by omega
    simp [get_parameter_history_endpoint, validateLimit, h1, hv]

/-- C2 amended witness: an in-range limit of 30 is accepted and served, and
a limit of 250 is rejected with a 422. -/
theorem history_limit_bounded_and_rejected_witness :
    ((1 : Int) ≤ 30 ∧ (30 : Int) ≤ 200 ∧
      [valueX] = okServices.list_parameter_value_history "ph" 30) ∧
    get_parameter_history_endpoint okServices "ph" (some 250) =
      EndpointResult.httpError 422 "Input should be less than or equal to 200" :=
  ⟨(history_limit_bounded_and_rejected okServices "ph" 30).1 [valueX] rfl,
   (history_limit_bounded_and_rejected okServices "ph" 250).2 (by decide)⟩

/-- C3: the record-parameters endpoint maps `UnknownSampleError` to a 404,
any other `DomainError` to a 400, and success to a 200 with the updated
sample. -/
theorem record_parameters_status_mapping (services : Services) (sample_id : Int)
    (payload : RecordParametersPayload) :
    (∀ msg, services.record_parameters sample_id payload.parameters =
        Except.error (.unknownSample msg) →
      record_parameters_endpoint services sample_id payload =
        EndpointResult.httpError 404 msg) ∧
    (∀ msg, services.record_parameters sample_id payload.parameters =
        Except.error (.other msg) →
      record_parameters_endpoint services sample_id payload =
        EndpointResult.httpError 400 msg) ∧
    (∀ updated, services.record_parameters sample_id payload.parameters =
        Except.ok updated →
      record_parameters_endpoint services sample_id payload =
        EndpointResult.success 200 ⟨updated⟩) := by
  refine ⟨?_, ?_, ?_⟩ <;> intro x h <;> simp [record_parameters_endpoint, h]

/-- C3 witness: the three status mappings at concrete services. -/
theorem record_parameters_status_mapping_witness :
    record_parameters_endpoint unknownServices 7 ⟨[]⟩ =
      EndpointResult.httpError 404 "Sample 9 not found" ∧
    record_parameters_endpoint badServices 7 ⟨[]⟩ =
      EndpointResult.httpError 400 "invalid value" ∧
    record_parameters_endpoint okServices 7 ⟨[]⟩ =
      EndpointResult.success 200 ⟨sampleA⟩ :=
  ⟨(record_parameters_status_mapping unknownServices 7 ⟨[]⟩).1 "Sample 9 not found" rfl,
   (record_parameters_status_mapping badServices 7 ⟨[]⟩).2.1 "invalid value" rfl,
   (record_parameters_status_mapping okServices 7 ⟨[]⟩).2.2 sampleA rfl⟩

/-- C4: the create-sample endpoint maps a `DomainError` from
`create_sample` to a 400 carrying the error message, and success to a 201
whose body is a `CreateResponse` (created sample plus `copied_parameters`
and `warnings`). -/
theorem create_sample_status_mapping (services : Services)
    (payload : CreateSamplePayload) :
    (∀ exc, services.create_sample payload.prepared_on payload.author_name =
        Except.error exc →
      create_sample_endpoint services payload =
        EndpointResult.httpError 400 exc.message) ∧
    (∀ created, services.create_sample payload.prepared_on payload.author_name =
        Except.ok created →
      ∃ response : CreateResponse, create_sample_endpoint services payload =
        EndpointResult.success 201 response) := by
  constructor
  · intro exc h
    simp [create_sample_endpoint, h]
  · intro created h
    rcases hflag : payload.copy_parameters with _ | _
    · exact ⟨⟨created, 0, []⟩, by simp [create_sample_endpoint, h, hflag]⟩
    · rcases htemplate : payload.template_sample_id with _ | template_id
      · exact ⟨⟨created, 0, []⟩, by simp [create_sample_endpoint, h, hflag, htemplate]⟩
      · rcases hcopy : services.copy_parameters_from_sample template_id created.sample_id
          with exc | result
        · exact ⟨⟨created, 0, [exc.message]⟩,
            by simp [create_sample_endpoint, h, hflag, htemplate, hcopy]⟩
        · exact ⟨⟨result.sample, result.applied, result.warnings⟩,
            by simp [create_sample_endpoint, h, hflag, htemplate, hcopy]⟩

/-- C4 witness: a 400 with the error message, and a 201 on success. -/
theorem create_sample_status_mapping_witness :
    create_sample_endpoint badServices ⟨"2024-01-05", none, none, false⟩ =
      EndpointResult.httpError 400 "invalid value" ∧
    ∃ response : CreateResponse,
      create_sample_endpoint okServices ⟨"2024-01-05", none, none, false⟩ =
        EndpointResult.success 201 response :=
  ⟨(create_sample_status_mapping badServices ⟨"2024-01-05", none, none, false⟩).1
      (.other "invalid value") rfl,
   (create_sample_status_mapping okServices ⟨"2024-01-05", none, none, false⟩).2
      sampleA rfl⟩

/-- C5: the by-id endpoint lists samples with `include_deleted=True` and
filters: any success is a listed summary with the requested id, a listed
summary with the requested id guarantees success, and when no listed sample
has the id the endpoint raises a 404. -/
theorem get_sample_list_filter (services : Services) (sample_id : Int) :
    (∀ summary, get_sample_endpoint services sample_id =
        EndpointResult.success 200 summary →
      summary ∈ services.list_samples true ∧ summary.sample_id = sample_id) ∧
    ((∃ s ∈ services.list_samples true, s.sample_id = sample_id) →
      ∃ summary, get_sample_endpoint services sample_id =
        EndpointResult.success 200 summary ∧ summary.sample_id = sample_id) ∧
    ((∀ s ∈ services.list_samples true, s.sample_id ≠ sample_id) →
      get_sample_endpoint services sample_id =
        EndpointResult.httpError 404 "Sample not found") := by
  refine ⟨?_, get_sample_success_of_mem services sample_id, ?_⟩
  · intro summary h
    rcases hfind : (services.list_samples true).find?
        (fun s => s.sample_id == sample_id) with _ | a
    · simp [get_sample_endpoint, hfind] at h
    · simp [get_sample_endpoint, hfind] at h
      have hpa := List.find?_some hfind
      have hmem := List.mem_of_find?_eq_some hfind
      subst h
      exact ⟨hmem, by simpa using hpa⟩
  · intro hnone
    have : (services.list_samples true).find?
        (fun s => s.sample_id == sample_id) = none := by
      rw [List.find?_eq_none]
      intro s hs
      simpa using hnone s hs
    simp [get_sample_endpoint, this]

/-- C5 witness: sample 1 is found; sample 5 gives a 404. -/
theorem get_sample_list_filter_witness :
    ((∃ s ∈ okServices.list_samples true, s.sample_id = 1) ∧
      ∃ summary, get_sample_endpoint okServices 1 =
        EndpointResult.success 200 summary ∧ summary.sample_id = 1) ∧
    get_sample_endpoint okServices 5 =
      EndpointResult.httpError 404 "Sample not found" := by
  constructor
  · have hex : ∃ s ∈ okServices.list_samples true, s.sample_id = 1 :=
      ⟨sampleA, by simp [okServices], by simp [sampleA]⟩
    exact ⟨hex, (get_sample_list_filter okServices 1).2.1 hex⟩
  · refine (get_sample_list_filter okServices 5).2.2 ?_
    intro s hs
    revert hs
    simp [okServices, sampleA, sampleB]
    rintro (rfl | rfl) <;> decide

/-- C6: when the requested copy succeeds inside POST create, the response's
`copied_parameters` is the copy result's `applied` count, its `warnings` are
the copy result's warnings in order, and the returned sample is the
refreshed target sample from the copy result. -/
theorem create_sample_merges_copy_result
    (services : Services) (payload : CreateSamplePayload)
    (created : SampleSummary) (template_id : Int) (result : CopyResult)
    (hflag : payload.copy_parameters = true)
    (htemplate : payload.template_sample_id = some template_id)
    (hcreate : services.create_sample payload.prepared_on payload.author_name =
      Except.ok created)
    (hcopy : services.copy_parameters_from_sample template_id created.sample_id =
      Except.ok result) :
    create_sample_endpoint services payload =
      EndpointResult.success 201 ⟨result.sample, result.applied, result.warnings⟩ := by
  simp [create_sample_endpoint, hcreate, hflag, htemplate, hcopy]

/-- C6 witness: a concrete successful copy is merged into the 201 body. -/
theorem create_sample_merges_copy_result_witness :
    create_sample_endpoint okServices ⟨"2024-01-05", some "Ada Lovelace", some 2, true⟩ =
      EndpointResult.success 201 ⟨sampleB, 3, ["stale"]⟩ :=
  create_sample_merges_copy_result okServices _ sampleA 2 ⟨3, sampleB, ["stale"]⟩
    rfl rfl rfl rfl

/-- C7: the get-parameter-values endpoint maps `UnknownSampleError` to a
404 and success to a 200 with the array of current values. -/
theorem list_sample_parameters_status_mapping (services : Services)
    (sample_id : Int) :
    (∀ msg, services.get_sample_parameter_values sample_id =
        Except.error (.unknownSample msg) →
      list_sample_parameters_endpoint services sample_id =
        EndpointResult.httpError 404 msg) ∧
    (∀ values, services.get_sample_parameter_values sample_id =
        Except.ok values →
      list_sample_parameters_endpoint services sample_id =
        EndpointResult.success 200 values) := by
  constructor <;> intro x h <;> simp [list_sample_parameters_endpoint, h]

/-- C7 witness: the two mappings at concrete services. -/
theorem list_sample_parameters_status_mapping_witness :
    list_sample_parameters_endpoint unknownServices 7 =
      EndpointResult.httpError 404 "Sample 9 not found" ∧
    list_sample_parameters_endpoint okServices 7 =
      EndpointResult.success 200 [valueX] :=
  ⟨(list_sample_parameters_status_mapping unknownServices 7).1 "Sample 9 not found" rfl,
   (list_sample_parameters_status_mapping okServices 7).2 [valueX] rfl⟩

/-- C8: the history endpoint's limit defaults to 25 when omitted, any limit
in 1..200 is accepted and served with a 200 carrying the history entries,
and every success response used a limit in 1..200. -/
theorem history_default_and_bounds (services : Services) (name : String) :
    get_parameter_history_endpoint services name none =
      EndpointResult.success 200 (services.list_parameter_value_history name 25) ∧
    (∀ v : Int, 1 ≤ v → v ≤ 200 →
      get_parameter_history_endpoint services name (some v) =
        EndpointResult.success 200 (services.list_parameter_value_history name v)) ∧
    (∀ (v : Int) body, get_parameter_history_endpoint services name (some v) =
        EndpointResult.success 200 body → 1 ≤ v ∧ v ≤ 200) := by
  refine ⟨rfl, ?_, ?_⟩
  · intro v h1 h2
    have hlt : ¬ v < 1 := by omega
    have hgt : ¬ 200 < v := by omega
    simp [get_parameter_history_endpoint, validateLimit, hlt, hgt]
  · intro v body h
    by_cases hlt : v < 1
    · simp [get_parameter_history_endpoint, validateLimit, hlt] at h
    · by_cases hgt : 200 < v
      · simp [get_parameter_history_endpoint, validateLimit, hlt, hgt] at h
      · omega

/-- C8 witness: default and an in-range limit at a concrete service. -/
theorem history_default_and_bounds_witness :
    get_parameter_history_endpoint okServices "ph" none =
      EndpointResult.success 200 [valueX] ∧
    get_parameter_history_endpoint okServices "ph" (some 3) =
      EndpointResult.success 200 [valueX] :=
  ⟨(history_default_and_bounds okServices "ph").1,
   (history_default_and_bounds okServices "ph").2.1 3 (by decide) (by decide)⟩

/-- C9: the by-id endpoint looks samples up with `include_deleted=True`, so
a soft-deleted listed sample is still returned by id, while the list
endpoint with the query parameter omitted uses `include_deleted=False` and
(given the repository excludes deleted samples there) omits it. -/
theorem soft_delete_visibility (services : Services) (s : SampleSummary)
    (hmem : s ∈ services.list_samples true)
    (hdel : s.deleted = true)
    (hrepo : ∀ t ∈ services.list_samples false, t.deleted = false) :
    (∃ summary, get_sample_endpoint services s.sample_id =
      EndpointResult.success 200 summary ∧ summary.sample_id = s.sample_id) ∧
    list_samples_endpoint services none =
      EndpointResult.success 200 (services.list_samples false) ∧
    s ∉ services.list_samples false := by
  refine ⟨get_sample_success_of_mem services s.sample_id ⟨s, hmem, rfl⟩, rfl, ?_⟩
  intro hcontra
  have := hrepo s hcontra
  rw [hdel] at this
  simp at this

/-- C9 witness: the soft-deleted sample 2 is returned by id but absent from
the default listing. -/
theorem soft_delete_visibility_witness :
    (∃ summary, get_sample_endpoint okServices sampleB.sample_id =
      EndpointResult.success 200 summary ∧ summary.sample_id = sampleB.sample_id) ∧
    list_samples_endpoint okServices none =
      EndpointResult.success 200 (okServices.list_samples false) ∧
    sampleB ∉ okServices.list_samples false :=
  soft_delete_visibility okServices sampleB
    (by simp [okServices]) rfl
    (by intro t ht; revert ht; simp [okServices]; intro h; rw [h]; rfl)

/-- C10: in POST create the copy is attempted only when `copy_parameters`
is true and `template_sample_id` is present; otherwise the response is a 201
with `copied_parameters = 0` and empty warnings, for every possible copy
operation — so `copy_parameters_from_sample` is never consulted. -/
theorem create_sample_no_copy (services : Services)
    (payload : CreateSamplePayload) (created : SampleSummary)
    (hcreate : services.create_sample payload.prepared_on payload.author_name =
      Except.ok created)
    (hno : payload.copy_parameters = false ∨ payload.template_sample_id = none) :
    create_sample_endpoint services payload =
      EndpointResult.success 201 ⟨created, 0, []⟩ ∧
    ∀ copyFn, create_sample_endpoint
        { services with copy_parameters_from_sample := copyFn } payload =
      EndpointResult.success 201 ⟨created, 0, []⟩ := by
  have hmain : ∀ copyFn, create_sample_endpoint
      { services with copy_parameters_from_sample := copyFn } payload =
      EndpointResult.success 201 ⟨created, 0, []⟩ := by
    intro copyFn
    rcases hno with hflag | htemplate
    · simp [create_sample_endpoint, hcreate, hflag]
    · rcases hflag : payload.copy_parameters with _ | _ <;>
        simp [create_sample_endpoint, hcreate, hflag, htemplate]
  constructor
  · have := hmain services.copy_parameters_from_sample
    simpa using this
  · exact hmain

/-- C10 witness: with `copy_parameters = false` but a template id present,
the response still reports zero copied parameters and no warnings. -/
theorem create_sample_no_copy_witness :
    create_sample_endpoint okServices ⟨"2024-01-05", none, some 2, false⟩ =
      EndpointResult.success 201 ⟨sampleA, 0, []⟩ :=
  (create_sample_no_copy okServices ⟨"2024-01-05", none, some 2, false⟩ sampleA
    rfl (Or.inl rfl)).1

end LabFrame
